import Mathlib

/-!
Shallow embedding of the GlobalPrice products API (src/app.py, src/models.py).

The repository is a Flask service over a SQLAlchemy store.  We model:
  * JSON values (request/response bodies) as an inductive `Json`; Python/JSON
    numbers are modelled as rationals (`Rat`); none of the claims depend on
    binary floating-point rounding.
  * the persistent store (the `products` table) as a list of `Product`
    records plus the autoincrement counter;
  * each Flask handler as a function from the store and its inputs to
    `Except PyExn (Store × Resp)`: `.ok` is a normal HTTP response (the store
    after commit), `.error` is an exception escaping the handler unhandled
    (Flask then produces a generic 500; no commit runs, so the durable store
    is unchanged);
  * the single outbound `requests.post` call's outcome as an `Upstream`
    value supplied by the environment as a function of the posted payload.

Request bodies are modelled as parsed JSON objects (association lists with
unique keys, as produced by a JSON parser); the handlers' behavior on
non-object bodies is outside every claim considered here.
-/

namespace GlobalPrice

/-- JSON values, used for request bodies, response bodies and stored fields.
Numbers are rationals: JSON has exact decimal literals and no claim here
depends on IEEE-754 rounding. -/
inductive Json where
  | null : Json
  | bool (b : Bool) : Json
  | num (q : Rat) : Json
  | str (s : String) : Json
  | arr (xs : List Json) : Json
  | obj (fields : List (String × Json)) : Json

/-- Python exceptions that the modelled handlers can let escape. -/
inductive PyExn where
  | valueError        -- e.g. float("abc")
  | typeError         -- e.g. float(None)
  | readTimeout       -- requests.exceptions.ReadTimeout (not a ConnectionError)
  | jsonDecodeError   -- response.json() on a non-JSON body
deriving DecidableEq, Repr

/-- Surrounding-whitespace strip applied by CPython `float(str)` before
parsing (modelled on the character list). -/
def stripChars (cs : List Char) : List Char :=
  ((cs.dropWhile Char.isWhitespace).reverse.dropWhile Char.isWhitespace).reverse

/-- Value of digit characters read left to right, as a natural number. -/
def digitsVal (cs : List Char) : Nat :=
  cs.foldl (fun n c => 10 * n + (c.toNat - ('0').toNat)) 0

/-- Mantissa of a Python float literal: `digits`, `digits.digits`, `.digits`
or `digits.` — at least one digit overall.  Returns the value and the
unconsumed characters. -/
def parseMantissa (cs : List Char) : Option (Rat × List Char) :=
  let intPart := cs.takeWhile Char.isDigit
  let rest := cs.dropWhile Char.isDigit
  match rest with
  | '.' :: rest2 =>
      let fracPart := rest2.takeWhile Char.isDigit
      let rest3 := rest2.dropWhile Char.isDigit
      if intPart.isEmpty && fracPart.isEmpty then none
      else some ((digitsVal intPart : Rat)
                  + (digitsVal fracPart : Rat) / ((10 : Rat) ^ fracPart.length), rest3)
  | _ =>
      if intPart.isEmpty then none
      else some ((digitsVal intPart : Rat), rest)

/-- Exponent suffix after the mantissa: sign and digits; the whole input must
be consumed.  Applies the scale to `sgn * m`. -/
def applyExp (sgn m : Rat) (r : List Char) : Option Rat :=
  let (epos, r2) : Bool × List Char :=
    match r with
    | '+' :: t => (true, t)
    | '-' :: t => (false, t)
    | t => (true, t)
  let ds := r2.takeWhile Char.isDigit
  let rest := r2.dropWhile Char.isDigit
  if ds.isEmpty || !rest.isEmpty then none
  else some (sgn * m * (if epos then (10 : Rat) ^ digitsVal ds
                        else ((10 : Rat) ^ digitsVal ds)⁻¹))

/-- Model of CPython `float(s)` on a string: strip surrounding whitespace,
optional sign, decimal mantissa, optional e/E exponent.  `none` means the
call raises `ValueError`.  The `inf`/`nan` words and digit-group underscores
(which CPython also accepts) are not modelled; no claim involves them. -/
def pyFloatString? (s : String) : Option Rat :=
  let cs := stripChars s.toList
  let (sgn, cs1) : Rat × List Char :=
    match cs with
    | '+' :: r => (1, r)
    | '-' :: r => (-1, r)
    | r => (1, r)
  match parseMantissa cs1 with
  | none => none
  | some (m, rest) =>
      match rest with
      | [] => some (sgn * m)
      | 'e' :: r => applyExp sgn m r
      | 'E' :: r => applyExp sgn m r
      | _ => none

/-- Model of CPython `float(x)` on a parsed JSON value: numbers pass through,
booleans coerce (float(True) = 1.0), strings go through the literal parse
(ValueError on failure), and null/containers raise TypeError. -/
def pyFloat : Json → Except PyExn Rat
  | .num q => .ok q
  | .bool b => .ok (if b then 1 else 0)
  | .str s =>
      match pyFloatString? s with
      | some q => .ok q
      | none => .error .valueError
  | .null => .error .typeError
  | .arr _ => .error .typeError
  | .obj _ => .error .typeError

/-- Product record (src/models.py): integer primary key, name, description,
float base_price.  `name` and `description` hold whatever JSON value the
request supplied (the store does not coerce them); `base_price` is always the
result of a `float(...)` coercion. -/
structure Product where
  id : Nat
  name : Json
  description : Json
  base_price : Rat

/-- Product.to_dict (src/models.py): the JSON-ready dictionary, in field
declaration order. -/
def Product.to_dict (p : Product) : List (String × Json) :=
  [("id", .num (p.id : Rat)), ("name", p.name),
   ("description", p.description), ("base_price", .num p.base_price)]

/-- Durable state of the products table: the records plus the autoincrement
counter for the next assigned id. -/
structure Store where
  nextId : Nat
  products : List Product

/-- Body of an HTTP response: a jsonify-produced JSON document, or Flask's
default (HTML) error page, e.g. for `get_or_404`. -/
inductive Body where
  | jsonB (j : Json) : Body
  | html (s : String) : Body

/-- HTTP response: status code and body. -/
structure Resp where
  status : Nat
  body : Body

/-- Response produced when `Product.query.get_or_404` aborts: Flask's default
404 page (an HTML body, not JSON). -/
def resp404 : Resp := ⟨404, .html "404 Not Found"⟩

/-- Model of `Product.query.get(id)` / the lookup behind `get_or_404`. -/
def findProduct (st : Store) (id : Nat) : Option Product :=
  st.products.find? (fun p => p.id == id)

/-- Single-field JSON error body, as built by the handlers' `jsonify({"error": ...})`. -/
def errorJson (msg : String) : Json := .obj [("error", .str msg)]

/-- Commit step of create_product: `db.session.add` + `db.session.commit`,
then the 201 response with the new record's to_dict.  The store assigns the
autoincrement id. -/
def insertProduct (st : Store) (p : Product) : Except PyExn (Store × Resp) :=
  .ok (⟨st.nextId + 1, st.products ++ [p]⟩, ⟨201, .jsonB (.obj p.to_dict)⟩)

/-- Handler for POST /products (src/app.py create_product).  `data` is the
parsed JSON object body.  The `not data` part of the source's guard is
subsumed: an object containing the two required keys is non-empty.  On a
non-numeric `base_price` the `float(...)` exception escapes (`.error`), so
the commit never runs. -/
def create_product (st : Store) (data : List (String × Json)) :
    Except PyExn (Store × Resp) :=
  if data.isEmpty || (data.lookup "name").isNone || (data.lookup "base_price").isNone then
    .ok (st, ⟨400, .jsonB (errorJson "Invalid data. Name and base_price are required.")⟩)
  else
    match pyFloat ((data.lookup "base_price").getD .null) with
    | .error e => .error e
    | .ok bp =>
        insertProduct st
          ⟨st.nextId, (data.lookup "name").getD .null,
           (data.lookup "description").getD (.str ""), bp⟩

/-- The `if name in data` assignment of update_product. -/
def withName (product : Product) (data : List (String × Json)) : Product :=
  match data.lookup "name" with
  | some v => { product with name := v }
  | none => product

/-- The `if description in data` assignment of update_product. -/
def withDescription (product : Product) (data : List (String × Json)) : Product :=
  match data.lookup "description" with
  | some v => { product with description := v }
  | none => product

/-- Commit step of update_product: `db.session.commit` writes the mutated
record back under its (unchanged) id, then the 200 response with its
to_dict. -/
def commitUpdate (st : Store) (id : Nat) (product : Product) :
    Except PyExn (Store × Resp) :=
  .ok (⟨st.nextId, st.products.map (fun p => if p.id == id then product else p)⟩,
       ⟨200, .jsonB (.obj product.to_dict)⟩)

/-- Handler for PUT /products/(id) (src/app.py update_product).  Applies
exactly the supplied fields, in source order: name, then the
`float(data["base_price"])` coercion (whose exception escapes unhandled, so
the commit never runs and the durable store is unchanged — the session rolls
back at request teardown), then description. -/
def update_product (st : Store) (id : Nat) (data : List (String × Json)) :
    Except PyExn (Store × Resp) :=
  match findProduct st id with
  | none => .ok (st, resp404)
  | some product =>
      match data.lookup "base_price" with
      | some v =>
          match pyFloat v with
          | .error e => .error e
          | .ok q =>
              commitUpdate st id
                (withDescription { withName product data with base_price := q } data)
      | none => commitUpdate st id (withDescription (withName product data) data)

/-- Query string, as werkzeug presents it: `request.args.get k` returns the
first value bound to `k`, or none. -/
def argsGet (args : List (String × String)) (key : String) : Option String :=
  args.lookup key

/-- Model of `request.args.get(key, default)`. -/
def argsGetD (args : List (String × String)) (key dflt : String) : String :=
  (argsGet args key).getD dflt

/-- One optional numeric override block of get_product_price_in_currency
(src/app.py lines 286-302, repeated for admin_fee, volatility_threshold,
max_panic_margin): if the raw parameter is present and truthy (non-empty),
try `float(...)`; on success append the key, on ValueError silently skip. -/
def addFloatArg (payload : List (String × Json)) (args : List (String × String))
    (key : String) : List (String × Json) :=
  match argsGet args key with
  | some s =>
      if s = "" then payload
      else
        match pyFloatString? s with
        | some q => payload ++ [(key, .num q)]
        | none => payload
  | none => payload

/-- The raw strings whose lowercasing makes force_panic true (src/app.py line 306). -/
def forcePanicTruthy : List String := ["true", "1", "yes", "on"]

/-- Outbound payload of get_product_price_in_currency (src/app.py lines
280-307): base fields, then the three optional numeric overrides, then the
force_panic flag (only ever set to true). -/
def buildPayload (product : Product) (currency : String)
    (args : List (String × String)) : List (String × Json) :=
  let payload : List (String × Json) :=
    [("base_price", .num product.base_price), ("target_currency", .str currency.toUpper)]
  let payload := addFloatArg payload args "admin_fee"
  let payload := addFloatArg payload args "volatility_threshold"
  let payload := addFloatArg payload args "max_panic_margin"
  let force_panic_raw := (argsGetD args "force_panic" "").toLower
  if forcePanicTruthy.contains force_panic_raw then
    payload ++ [("force_panic", .bool true)]
  else payload

/-- Outcome of the single `requests.post(..., timeout=30)` call.
`response status text json` is an HTTP reply: its status code, raw body text
(`response.text`), and the JSON parse of that text (`none` when
`response.json()` would raise).  `connectionError` covers
requests.exceptions.ConnectionError (including ConnectTimeout, a subclass);
`readTimeout` covers requests.exceptions.ReadTimeout, which is NOT a
ConnectionError subclass. -/
inductive Upstream where
  | response (status : Nat) (text : String) (json : Option Json) : Upstream
  | connectionError : Upstream
  | readTimeout : Upstream

/-- Handler for GET /products/(id)/price/(currency)
(src/app.py get_product_price_in_currency).  `collab` gives the outcome of
POSTing the built payload to the pricing collaborator.  The source's
try/except catches only requests.exceptions.ConnectionError, so a read
timeout, or `response.json()` failing on a 200 reply, escapes unhandled
(`.error`).  The handler performs no store writes. -/
def get_product_price_in_currency (st : Store) (id : Nat) (currency : String)
    (args : List (String × String)) (collab : List (String × Json) → Upstream) :
    Except PyExn (Store × Resp) :=
  match findProduct st id with
  | none => .ok (st, resp404)
  | some product =>
      match collab (buildPayload product currency args) with
      | .response status text jsonBody =>
          if status == 200 then
            match jsonBody with
            | some conversion_data =>
                let result := product.to_dict ++ [("price_in_currency", conversion_data)]
                .ok (st, ⟨200, .jsonB (.obj result)⟩)
            | none => .error .jsonDecodeError
          else
            .ok (st, ⟨502, .jsonB (.obj
              [("error", .str "Failed to convert price via Pricing Service"),
               ("details", .str text)])⟩)
      | .connectionError =>
          .ok (st, ⟨503, .jsonB (.obj
            [("error", .str "pricing Service is unreachable. Is it running?"),
             ("tip", .str "If running locally, ensure the Pricing API is on port 5001.")])⟩)
      | .readTimeout => .error .readTimeout

/-- Status code of a handler outcome: `some s` when the handler answered with
an HTTP response of status s, `none` when an exception escaped it. -/
def statusOf (res : Except PyExn (Store × Resp)) : Option Nat :=
  match res with
  | .ok (_, r) => some r.status
  | .error _ => none

/-- The spec's data-model requirement on a name field: non-empty text. -/
def validName (v : Json) : Prop :=
  match v with
  | .str s => s ≠ ""
  | _ => False

/-- The spec's data-model requirement on a supplied base_price: whatever the
`float(...)` coercion yields must be non-negative. -/
def validPrice (v : Json) : Prop :=
  ∀ q, pyFloat v = .ok q → 0 ≤ q

/-- Request body supplying only spec-conforming field values: a supplied name
is non-empty text, a supplied base_price coerces to a non-negative number. -/
def dataValid (data : List (String × Json)) : Prop :=
  (∀ v, data.lookup "name" = some v → validName v) ∧
  (∀ v, data.lookup "base_price" = some v → validPrice v)

/-- The spec's Product invariant: non-empty text name, non-negative base_price. -/
def productOk (p : Product) : Prop := validName p.name ∧ 0 ≤ p.base_price

/-- The spec's store-wide invariant: every stored record satisfies `productOk`. -/
def storeInv (st : Store) : Prop := ∀ p ∈ st.products, productOk p

/-- A single catalog write operation: one create or one update call. -/
inductive Op where
  | create (data : List (String × Json)) : Op
  | update (id : Nat) (data : List (String × Json)) : Op

/-- The operation's request body supplies only spec-conforming values. -/
def opValid : Op → Prop
  | .create data => dataValid data
  | .update _ data => dataValid data

/-- Dispatch an operation to its handler. -/
def applyOp (st : Store) : Op → Except PyExn (Store × Resp)
  | .create data => create_product st data
  | .update id data => update_product st id data

/-- Durable store after one operation: the committed store on a normal
response; unchanged when an exception escaped (the commit never ran). -/
def runOp (st : Store) (op : Op) : Store :=
  match applyOp st op with
  | .ok (st1, _) => st1
  | .error _ => st

/-- Durable store after a sequence of create/update calls. -/
def runOps (st : Store) (ops : List Op) : Store := ops.foldl runOp st

/-- Concrete sample record, as in the spec's own example. -/
def sampleProduct : Product := ⟨1, .str "iPhone 15 Pro", .str "", 7000⟩

/-- Concrete sample store holding just `sampleProduct`. -/
def sampleStore : Store := ⟨2, [sampleProduct]⟩

/-- Concrete sample write sequence: one valid create then one valid update. -/
def sampleOps : List Op :=
  [.create [("name", .str "iPhone 15 Pro"), ("base_price", .num 7000)],
   .update 1 [("base_price", .num 7500)]]

/-- C1: FALSE of the code (code_bug).  The spec requires every non-connection
transport failure (read timeout, malformed 200 body) to be mapped to a
structured 502/503 JSON answer with no exception escaping; but the source's
try/except catches only requests.exceptions.ConnectionError, so on an
existing product a read timeout, or a status-200 reply whose body is not
parseable JSON, escapes the handler as an unhandled exception.  This theorem
evaluates the handler at both failing inputs. -/
theorem C1_transport_failures_escape_unhandled :
    get_product_price_in_currency sampleStore 1 "USD" [] (fun _ => .readTimeout)
      = .error .readTimeout ∧
    get_product_price_in_currency sampleStore 1 "USD" []
        (fun _ => .response 200 "this body is not JSON" none)
      = .error .jsonDecodeError :=
  ⟨rfl, rfl⟩

/-- C2: FALSE of the code (code_bug).  The spec requires a non-numeric
base_price to fail with ValidationError (a structured 400); but the source
calls `float(data["base_price"])` outside any try, so the ValueError escapes
the handler unhandled, in create_product as well as in update_product on an
existing id.  This theorem evaluates both handlers at the failing input. -/
theorem C2_nonnumeric_base_price_raises_unhandled :
    create_product ⟨1, []⟩ [("name", .str "Mouse"), ("base_price", .str "abc")]
      = .error .valueError ∧
    update_product sampleStore 1 [("base_price", .str "abc")]
      = .error .valueError :=
  ⟨rfl, rfl⟩

/-- C4: on an existing product, a collaborator reply with any status other
than 200 makes the handler answer 502 with a JSON body whose `error` field is
present and whose `details` field carries the collaborator's raw response
text verbatim. -/
theorem C4_upstream_non_success_maps_to_502_with_details
    (st : Store) (id : Nat) (currency : String) (args : List (String × String))
    (product : Product) (status : Nat) (text : String) (js : Option Json)
    (hfind : findProduct st id = some product) (hstatus : status ≠ 200) :
    get_product_price_in_currency st id currency args (fun _ => .response status text js)
      = .ok (st, ⟨502, .jsonB (.obj
          [("error", .str "Failed to convert price via Pricing Service"),
           ("details", .str text)])⟩) := by
  have hb : (status == 200) = false := by simpa using hstatus
  unfold get_product_price_in_currency
  rw [hfind]
  simp [hb]

/-- Witness for C4: the spec's own scenario, collaborator replying 500. -/
theorem C4_witness :
    get_product_price_in_currency sampleStore 1 "USD" []
        (fun _ => .response 500 "Internal Server Error" none)
      = .ok (sampleStore, ⟨502, .jsonB (.obj
          [("error", .str "Failed to convert price via Pricing Service"),
           ("details", .str "Internal Server Error")])⟩) :=
  C4_upstream_non_success_maps_to_502_with_details sampleStore 1 "USD" []
    sampleProduct 500 "Internal Server Error" none rfl (by decide)

/-- C5: on an existing product, a connection-level failure of the outbound
call makes the handler answer 503 with a JSON body containing both an
`error` field and a `tip` field naming where the collaborator should listen. -/
theorem C5_connection_error_maps_to_503_with_tip
    (st : Store) (id : Nat) (currency : String) (args : List (String × String))
    (product : Product)
    (hfind : findProduct st id = some product) :
    get_product_price_in_currency st id currency args (fun _ => .connectionError)
      = .ok (st, ⟨503, .jsonB (.obj
          [("error", .str "pricing Service is unreachable. Is it running?"),
           ("tip", .str "If running locally, ensure the Pricing API is on port 5001.")])⟩) := by
  unfold get_product_price_in_currency
  rw [hfind]

/-- Witness for C5: connection refused against the sample store. -/
theorem C5_witness :
    get_product_price_in_currency sampleStore 1 "USD" [] (fun _ => .connectionError)
      = .ok (sampleStore, ⟨503, .jsonB (.obj
          [("error", .str "pricing Service is unreachable. Is it running?"),
           ("tip", .str "If running locally, ensure the Pricing API is on port 5001.")])⟩) :=
  C5_connection_error_maps_to_503_with_tip sampleStore 1 "USD" [] sampleProduct rfl

/-- C6: on an existing product, a collaborator reply of status 200 whose body
parses to JSON B makes the handler answer 200 with the product's dictionary
representation extended by a `price_in_currency` key equal to B unchanged. -/
theorem C6_success_merges_price_in_currency
    (st : Store) (id : Nat) (currency : String) (args : List (String × String))
    (product : Product) (text : String) (B : Json)
    (hfind : findProduct st id = some product) :
    get_product_price_in_currency st id currency args (fun _ => .response 200 text (some B))
      = .ok (st, ⟨200, .jsonB (.obj (product.to_dict ++ [("price_in_currency", B)]))⟩) := by
  unfold get_product_price_in_currency
  rw [hfind]
  rfl

/-- Witness for C6: the spec's own example body, converted_amount 50 in USD. -/
theorem C6_witness :
    get_product_price_in_currency sampleStore 1 "USD" []
        (fun _ => .response 200 "ok"
          (some (.obj [("converted_amount", .num 50), ("currency", .str "USD")])))
      = .ok (sampleStore, ⟨200, .jsonB (.obj (sampleProduct.to_dict ++
          [("price_in_currency",
            .obj [("converted_amount", .num 50), ("currency", .str "USD")])]))⟩) :=
  C6_success_merges_price_in_currency sampleStore 1 "USD" [] sampleProduct "ok"
    (.obj [("converted_amount", .num 50), ("currency", .str "USD")]) rfl

/-- C10: the price endpoint performs no store writes — every normal response
(404 on an absent product, 200 success, 502 upstream rejection, 503
unreachable) leaves the stored records and the id counter exactly as they
were. -/
theorem C10_price_endpoint_preserves_store
    (st : Store) (id : Nat) (currency : String) (args : List (String × String))
    (collab : List (String × Json) → Upstream) (st' : Store) (r : Resp)
    (h : get_product_price_in_currency st id currency args collab = .ok (st', r)) :
    st' = st := by
  unfold get_product_price_in_currency at h
  split at h
  · injection h with h1
    exact (congrArg Prod.fst h1).symm
  · split at h
    · split at h
      · split at h
        · injection h with h1
          exact (congrArg Prod.fst h1).symm
        · exact Except.noConfusion h
      · injection h with h1
        exact (congrArg Prod.fst h1).symm
    · injection h with h1
      exact (congrArg Prod.fst h1).symm
    · exact Except.noConfusion h

/-- Witness for C10: a 503 outcome against the sample store leaves it intact. -/
theorem C10_witness : sampleStore = sampleStore :=
  C10_price_endpoint_preserves_store sampleStore 1 "USD" [] (fun _ => .connectionError)
    sampleStore
    ⟨503, .jsonB (.obj
      [("error", .str "pricing Service is unreachable. Is it running?"),
       ("tip", .str "If running locally, ensure the Pricing API is on port 5001.")])⟩
    rfl

/-- Every normal response of the price endpoint carries one of the four
statuses of its response mapping: 404, 200, 502 or 503. -/
lemma price_status_cases
    (st : Store) (id : Nat) (currency : String) (args : List (String × String))
    (collab : List (String × Json) → Upstream) (st' : Store) (r : Resp)
    (h : get_product_price_in_currency st id currency args collab = .ok (st', r)) :
    r.status = 404 ∨ r.status = 200 ∨ r.status = 502 ∨ r.status = 503 := by
  unfold get_product_price_in_currency at h
  split at h
  · injection h with h1
    injection h1 with ha hb
    subst hb
    left; rfl
  · split at h
    · split at h
      · split at h
        · injection h with h1
          injection h1 with ha hb
          subst hb
          right; left; rfl
        · exact Except.noConfusion h
      · injection h with h1
        injection h1 with ha hb
        subst hb
        right; right; left; rfl
    · injection h with h1
      injection h1 with ha hb
      subst hb
      right; right; right; rfl
    · exact Except.noConfusion h

/-- Adding an optional override under one key never contributes entries under
a different key. -/
lemma filter_addFloatArg_ne (payload : List (String × Json)) (args : List (String × String))
    (key k : String) (hk : (key == k) = false) :
    (addFloatArg payload args key).filter (fun kv => kv.1 == k)
      = payload.filter (fun kv => kv.1 == k) := by
  unfold addFloatArg
  split
  · split
    · rfl
    · split
      · simp [List.filter_append, hk]
      · rfl
  · rfl

/-- C7: the outbound payload carries a force_panic entry — necessarily with
value true — exactly when the raw query value, lowercased, is one of
"true", "1", "yes", "on"; for any other value (the absent parameter reads as
the empty string) no force_panic entry exists at all. -/
theorem C7_force_panic_key_iff_truthy_raw
    (product : Product) (currency : String) (args : List (String × String)) :
    (buildPayload product currency args).filter (fun kv => kv.1 == "force_panic")
      = (if forcePanicTruthy.contains ((argsGetD args "force_panic" "").toLower)
         then [("force_panic", Json.bool true)] else []) := by
  have hbase :
      (addFloatArg (addFloatArg (addFloatArg
          [("base_price", Json.num product.base_price),
           ("target_currency", Json.str currency.toUpper)]
          args "admin_fee") args "volatility_threshold") args "max_panic_margin").filter
        (fun kv => kv.1 == "force_panic") = [] := by
    rw [filter_addFloatArg_ne _ args "max_panic_margin" "force_panic" rfl,
        filter_addFloatArg_ne _ args "volatility_threshold" "force_panic" rfl,
        filter_addFloatArg_ne _ args "admin_fee" "force_panic" rfl]
    rfl
  simp only [buildPayload]
  by_cases hc : forcePanicTruthy.contains ((argsGetD args "force_panic" "").toLower) = true
  · rw [if_pos hc, if_pos hc, List.filter_append, hbase]
    rfl
  · rw [if_neg hc, if_neg hc]
    exact hbase

/-- C8: a supplied but unparseable optional numeric override (admin_fee,
volatility_threshold or max_panic_margin) contributes no entry at all to the
outbound payload — so no locally chosen default is substituted — and the
request still completes without ever producing a 400 status. -/
theorem C8_invalid_numeric_override_dropped
    (st : Store) (id : Nat) (currency : String) (args : List (String × String))
    (collab : List (String × Json) → Upstream) (product : Product) (key s : String)
    (hkey : key = "admin_fee" ∨ key = "volatility_threshold" ∨ key = "max_panic_margin")
    (hargs : argsGet args key = some s)
    (hparse : pyFloatString? s = none)
    (hfind : findProduct st id = some product) :
    (buildPayload product currency args).filter (fun kv => kv.1 == key) = [] ∧
    statusOf (get_product_price_in_currency st id currency args collab) ≠ some 400 := by
  have hinv : ∀ payload, addFloatArg payload args key = payload := by
    intro payload
    unfold addFloatArg
    rw [hargs]
    show (if s = "" then payload
          else match pyFloatString? s with
               | some q => payload ++ [(key, Json.num q)]
               | none => payload) = payload
    by_cases hs : s = ""
    · rw [if_pos hs]
    · rw [if_neg hs, hparse]
  constructor
  · simp only [buildPayload]
    rcases hkey with h | h | h <;> subst h <;> rw [hinv] <;>
      by_cases hc : forcePanicTruthy.contains ((argsGetD args "force_panic" "").toLower) = true
    · rw [if_pos hc, List.filter_append,
          filter_addFloatArg_ne _ args "max_panic_margin" "admin_fee" rfl,
          filter_addFloatArg_ne _ args "volatility_threshold" "admin_fee" rfl]
      rfl
    · rw [if_neg hc,
          filter_addFloatArg_ne _ args "max_panic_margin" "admin_fee" rfl,
          filter_addFloatArg_ne _ args "volatility_threshold" "admin_fee" rfl]
      rfl
    · rw [if_pos hc, List.filter_append,
          filter_addFloatArg_ne _ args "max_panic_margin" "volatility_threshold" rfl,
          filter_addFloatArg_ne _ args "admin_fee" "volatility_threshold" rfl]
      rfl
    · rw [if_neg hc,
          filter_addFloatArg_ne _ args "max_panic_margin" "volatility_threshold" rfl,
          filter_addFloatArg_ne _ args "admin_fee" "volatility_threshold" rfl]
      rfl
    · rw [if_pos hc, List.filter_append,
          filter_addFloatArg_ne _ args "volatility_threshold" "max_panic_margin" rfl,
          filter_addFloatArg_ne _ args "admin_fee" "max_panic_margin" rfl]
      rfl
    · rw [if_neg hc,
          filter_addFloatArg_ne _ args "volatility_threshold" "max_panic_margin" rfl,
          filter_addFloatArg_ne _ args "admin_fee" "max_panic_margin" rfl]
      rfl
  · intro hbad
    cases hres : get_product_price_in_currency st id currency args collab with
    | error e =>
        rw [hres] at hbad
        exact Option.noConfusion hbad
    | ok pr =>
        obtain ⟨stx, rx⟩ := pr
        rw [hres] at hbad
        have hb2 : some rx.status = some 400 := hbad
        have hb3 : rx.status = 400 := by injection hb2
        rcases price_status_cases st id currency args collab stx rx hres
          with h4 | h4 | h4 | h4 <;> omega

/-- A create that answers normally extends the store by one record that, when
the supplied values conform to the spec's data model, satisfies `productOk`. -/
lemma create_product_preserves
    (st : Store) (data : List (String × Json)) (st' : Store) (r : Resp)
    (hinv : storeInv st) (hdata : dataValid data)
    (hok : create_product st data = .ok (st', r)) : storeInv st' := by
  unfold create_product at hok
  split at hok
  · injection hok with h1
    injection h1 with ha hb
    subst ha
    exact hinv
  · rename_i hguard
    have hname : ∃ v, data.lookup "name" = some v := by
      cases hl : data.lookup "name" with
      | some v => exact ⟨v, rfl⟩
      | none => simp [hl] at hguard
    have hbp : ∃ v, data.lookup "base_price" = some v := by
      cases hl : data.lookup "base_price" with
      | some v => exact ⟨v, rfl⟩
      | none => simp [hl] at hguard
    obtain ⟨nv, hnv⟩ := hname
    obtain ⟨bv, hbv⟩ := hbp
    rw [hbv, Option.getD_some] at hok
    split at hok
    · exact Except.noConfusion hok
    · rename_i q hq
      unfold insertProduct at hok
      injection hok with h1
      injection h1 with ha hb
      subst ha
      intro p hp
      rcases List.mem_append.mp hp with hmem | hmem
      · exact hinv p hmem
      · have hpe := List.mem_singleton.mp hmem
        subst hpe
        constructor
        · show validName ((data.lookup "name").getD Json.null)
          rw [hnv, Option.getD_some]
          exact hdata.1 nv hnv
        · exact hdata.2 bv hbv q hq

/-- The commit step of update preserves the store invariant when the written
record itself conforms. -/
lemma commitUpdate_preserves
    (st : Store) (id : Nat) (newp : Product) (st' : Store) (r : Resp)
    (hinv : storeInv st) (hp : productOk newp)
    (hok : commitUpdate st id newp = .ok (st', r)) : storeInv st' := by
  unfold commitUpdate at hok
  injection hok with h1
  injection h1 with ha hb
  subst ha
  intro p hp2
  rcases List.mem_map.mp hp2 with ⟨q0, hq0, hq1⟩
  by_cases hcase : (q0.id == id) = true
  · rw [if_pos hcase] at hq1
    subst hq1
    exact hp
  · rw [if_neg hcase] at hq1
    subst hq1
    exact hinv q0 hq0

/-- The name assignment of update keeps a spec-conforming name, given a body
that supplies only conforming values. -/
lemma withName_name_valid
    (product : Product) (data : List (String × Json))
    (hdata : dataValid data) (hn : validName product.name) :
    validName (withName product data).name := by
  unfold withName
  split
  · rename_i v hv
    exact hdata.1 v hv
  · exact hn

/-- The name assignment never touches base_price. -/
lemma withName_base_price (product : Product) (data : List (String × Json)) :
    (withName product data).base_price = product.base_price := by
  unfold withName
  split <;> rfl

/-- The description assignment never touches the name. -/
lemma withDescription_name (product : Product) (data : List (String × Json)) :
    (withDescription product data).name = product.name := by
  unfold withDescription
  split <;> rfl

/-- The description assignment never touches base_price. -/
lemma withDescription_base_price (product : Product) (data : List (String × Json)) :
    (withDescription product data).base_price = product.base_price := by
  unfold withDescription
  split <;> rfl

/-- An update that answers normally rewrites only the addressed record and,
when the supplied values conform to the spec's data model, the rewritten
record still satisfies `productOk`. -/
lemma update_product_preserves
    (st : Store) (id : Nat) (data : List (String × Json)) (st' : Store) (r : Resp)
    (hinv : storeInv st) (hdata : dataValid data)
    (hok : update_product st id data = .ok (st', r)) : storeInv st' := by
  unfold update_product at hok
  split at hok
  · injection hok with h1
    injection h1 with ha hb
    subst ha
    exact hinv
  · rename_i product hf
    have hprod : productOk product := hinv product (List.mem_of_find?_eq_some hf)
    split at hok
    · rename_i v hbv
      split at hok
      · exact Except.noConfusion hok
      · rename_i q hq
        refine commitUpdate_preserves st id _ st' r hinv ?_ hok
        constructor
        · rw [withDescription_name]
          show validName (withName product data).name
          exact withName_name_valid product data hdata hprod.1
        · rw [withDescription_base_price]
          show (0 : Rat) ≤ q
          exact hdata.2 v hbv q hq
    · refine commitUpdate_preserves st id _ st' r hinv ?_ hok
      constructor
      · rw [withDescription_name]
        exact withName_name_valid product data hdata hprod.1
      · rw [withDescription_base_price, withName_base_price]
        exact hprod.2

/-- One valid create/update call keeps the durable store conforming, whether
it answers normally or lets an exception escape (no commit then). -/
lemma runOp_preserves (st : Store) (op : Op) (hinv : storeInv st) (hval : opValid op) :
    storeInv (runOp st op) := by
  cases op with
  | create data =>
      show storeInv (match create_product st data with
        | Except.ok (st1, _) => st1
        | Except.error _ => st)
      cases hc : create_product st data with
      | ok pr =>
          obtain ⟨st1, r1⟩ := pr
          exact create_product_preserves st data st1 r1 hinv hval hc
      | error e => exact hinv
  | update id data =>
      show storeInv (match update_product st id data with
        | Except.ok (st1, _) => st1
        | Except.error _ => st)
      cases hc : update_product st id data with
      | ok pr =>
          obtain ⟨st1, r1⟩ := pr
          exact update_product_preserves st id data st1 r1 hinv hval hc
      | error e => exact hinv

/-- C3 (amended): provided every create/update request supplies a non-empty
name and a base_price coercing to a non-negative number, every store reached
by a sequence of create/update calls satisfies the data-model invariant.
The code itself does not enforce the invariant (see the counterexample). -/
theorem C3_invariant_preserved_for_valid_inputs :
    ∀ (ops : List Op) (st : Store), storeInv st → (∀ op ∈ ops, opValid op) →
      storeInv (runOps st ops) := by
  intro ops
  induction ops with
  | nil =>
      intro st h _
      exact h
  | cons op rest ih =>
      intro st hinv hval
      exact ih (runOp st op)
        (runOp_preserves st op hinv (hval op (List.mem_cons_self op rest)))
        (fun o ho => hval o (List.mem_cons_of_mem op ho))

/-- Counterexample to C3 as stated: a single create supplying an empty name
and a negative base_price is accepted by the code and stores a record
violating the invariant. -/
theorem C3_counterexample_empty_name_negative_price :
    (runOps ⟨1, []⟩ [Op.create [("name", Json.str ""), ("base_price", Json.num (-1))]]).products
      = [⟨1, Json.str "", Json.str "", -1⟩] ∧
    ¬ storeInv (runOps ⟨1, []⟩
        [Op.create [("name", Json.str ""), ("base_price", Json.num (-1))]]) := by
  constructor
  · rfl
  · intro h
    have hmem : (⟨1, Json.str "", Json.str "", -1⟩ : Product) ∈
        (runOps ⟨1, []⟩
          [Op.create [("name", Json.str ""), ("base_price", Json.num (-1))]]).products := by
      show (⟨1, Json.str "", Json.str "", -1⟩ : Product)
          ∈ [(⟨1, Json.str "", Json.str "", -1⟩ : Product)]
      exact List.mem_singleton.mpr rfl
    exact (h _ hmem).1 rfl

/-- Witness for C3 (amended): a valid create followed by a valid update,
starting from the empty store, ends in a conforming store. -/
theorem C3_witness : storeInv (runOps ⟨1, []⟩ sampleOps) :=
  C3_invariant_preserved_for_valid_inputs sampleOps ⟨1, []⟩
    (by
      intro p hp
      exact absurd hp (List.not_mem_nil p))
    (by
      intro op hop
      rcases List.mem_cons.mp hop with h | hop2
      · subst h
        constructor
        · intro v hv
          have hv2 : some (Json.str "iPhone 15 Pro") = some v := hv
          injection hv2 with hv3
          subst hv3
          show ("iPhone 15 Pro" : String) ≠ ""
          decide
        · intro v hv
          have hv2 : some (Json.num 7000) = some v := hv
          injection hv2 with hv3
          subst hv3
          intro q hq
          have hq2 : Except.ok (7000 : Rat) = Except.ok q := hq
          injection hq2 with hq3
          subst hq3
          norm_num
      · rcases List.mem_cons.mp hop2 with h | hcontra
        · subst h
          constructor
          · intro v hv
            exact Option.noConfusion hv
          · intro v hv
            have hv2 : some (Json.num 7500) = some v := hv
            injection hv2 with hv3
            subst hv3
            intro q hq
            have hq2 : Except.ok (7500 : Rat) = Except.ok q := hq
            injection hq2 with hq3
            subst hq3
            norm_num
        · exact absurd hcontra (List.not_mem_nil op))

/-- Witness for C8: the spec's own example, admin_fee=not_a_number against
the sample store with a healthy collaborator. -/
theorem C8_witness :
    (buildPayload sampleProduct "USD" [("admin_fee", "not_a_number")]).filter
        (fun kv => kv.1 == "admin_fee") = [] ∧
    statusOf (get_product_price_in_currency sampleStore 1 "USD"
        [("admin_fee", "not_a_number")] (fun _ => .response 200 "ok" (some (.obj []))))
      ≠ some 400 :=
  C8_invalid_numeric_override_dropped sampleStore 1 "USD" [("admin_fee", "not_a_number")]
    (fun _ => .response 200 "ok" (some (.obj []))) sampleProduct "admin_fee" "not_a_number"
    (Or.inl rfl) rfl rfl rfl

/-- The name assignment never touches the id. -/
lemma withName_id (product : Product) (data : List (String × Json)) :
    (withName product data).id = product.id := by
  unfold withName
  split <;> rfl

/-- The description assignment never touches the id. -/
lemma withDescription_id (product : Product) (data : List (String × Json)) :
    (withDescription product data).id = product.id := by
  unfold withDescription
  split <;> rfl

/-- The name assignment leaves the name alone when the body omits it. -/
lemma withName_name_none (product : Product) (data : List (String × Json))
    (h : data.lookup "name" = none) : (withName product data).name = product.name := by
  unfold withName
  rw [h]

/-- The name assignment installs the supplied name when the body has one. -/
lemma withName_name_some (product : Product) (data : List (String × Json)) (v : Json)
    (h : data.lookup "name" = some v) : (withName product data).name = v := by
  unfold withName
  rw [h]

/-- The name assignment never touches the description. -/
lemma withName_description (product : Product) (data : List (String × Json)) :
    (withName product data).description = product.description := by
  unfold withName
  split <;> rfl

/-- The description assignment leaves the description alone when the body
omits it. -/
lemma withDescription_desc_none (product : Product) (data : List (String × Json))
    (h : data.lookup "description" = none) :
    (withDescription product data).description = product.description := by
  unfold withDescription
  rw [h]

/-- The description assignment installs the supplied description when the
body has one. -/
lemma withDescription_desc_some (product : Product) (data : List (String × Json)) (v : Json)
    (h : data.lookup "description" = some v) :
    (withDescription product data).description = v := by
  unfold withDescription
  rw [h]

/-- C9: an update on an existing product rewrites exactly the addressed
record (every other record and the id counter are untouched), and the
rewritten record keeps its id and changes exactly the fields explicitly
supplied in the body: an omitted field keeps its old value, a supplied name
or description takes the supplied value, and a supplied base_price takes the
value its float coercion produced. -/
theorem C9_update_changes_exactly_supplied_fields
    (st : Store) (id : Nat) (data : List (String × Json)) (product : Product)
    (st' : Store) (r : Resp)
    (hfind : findProduct st id = some product)
    (hok : update_product st id data = .ok (st', r)) :
    st'.nextId = st.nextId ∧
    ∃ p', st'.products = st.products.map (fun q => if q.id == id then p' else q) ∧
      p'.id = product.id ∧
      (data.lookup "name" = none → p'.name = product.name) ∧
      (∀ v, data.lookup "name" = some v → p'.name = v) ∧
      (data.lookup "base_price" = none → p'.base_price = product.base_price) ∧
      (∀ v, data.lookup "base_price" = some v → pyFloat v = .ok p'.base_price) ∧
      (data.lookup "description" = none → p'.description = product.description) ∧
      (∀ v, data.lookup "description" = some v → p'.description = v) := by
  unfold update_product at hok
  split at hok
  · rename_i heq
    rw [hfind] at heq
    exact Option.noConfusion heq
  · rename_i product0 heq
    rw [hfind] at heq
    injection heq with heq2
    subst heq2
    split at hok
    · rename_i v hbv
      split at hok
      · exact Except.noConfusion hok
      · rename_i q hq
        unfold commitUpdate at hok
        injection hok with h1
        injection h1 with ha hb
        subst ha
        refine ⟨rfl, withDescription { withName product data with base_price := q } data,
          rfl, ?_, ?_, ?_, ?_, ?_, ?_, ?_⟩
        · rw [withDescription_id]
          show (withName product data).id = product.id
          exact withName_id product data
        · intro h0
          rw [withDescription_name]
          show (withName product data).name = product.name
          exact withName_name_none product data h0
        · intro v0 hv0
          rw [withDescription_name]
          show (withName product data).name = v0
          exact withName_name_some product data v0 hv0
        · intro h0
          rw [h0] at hbv
          exact Option.noConfusion hbv
        · intro v0 hv0
          rw [hbv] at hv0
          injection hv0 with hv1
          subst hv1
          rw [withDescription_base_price]
          exact hq
        · intro h0
          rw [withDescription_desc_none _ data h0]
          show (withName product data).description = product.description
          exact withName_description product data
        · intro v0 hv0
          exact withDescription_desc_some _ data v0 hv0
    · rename_i hbn
      unfold commitUpdate at hok
      injection hok with h1
      injection h1 with ha hb
      subst ha
      refine ⟨rfl, withDescription (withName product data) data,
        rfl, ?_, ?_, ?_, ?_, ?_, ?_, ?_⟩
      · rw [withDescription_id]
        exact withName_id product data
      · intro h0
        rw [withDescription_name]
        exact withName_name_none product data h0
      · intro v0 hv0
        rw [withDescription_name]
        exact withName_name_some product data v0 hv0
      · intro h0
        rw [withDescription_base_price]
        exact withName_base_price product data
      · intro v0 hv0
        rw [hbn] at hv0
        exact Option.noConfusion hv0
      · intro h0
        rw [withDescription_desc_none _ data h0]
        exact withName_description product data
      · intro v0 hv0
        exact withDescription_desc_some _ data v0 hv0

/-- Witness for C9: the spec's partial-update example — a body supplying only
base_price, against the sample store. -/
theorem C9_witness :
    (⟨2, [⟨1, Json.str "iPhone 15 Pro", Json.str "", 7500⟩]⟩ : Store).nextId
        = sampleStore.nextId ∧
    ∃ p', (⟨2, [⟨1, Json.str "iPhone 15 Pro", Json.str "", 7500⟩]⟩ : Store).products
        = sampleStore.products.map (fun q => if q.id == 1 then p' else q) ∧
      p'.id = sampleProduct.id ∧
      (([("base_price", Json.num 7500)] : List (String × Json)).lookup "name" = none →
        p'.name = sampleProduct.name) ∧
      (∀ v, ([("base_price", Json.num 7500)] : List (String × Json)).lookup "name" = some v →
        p'.name = v) ∧
      (([("base_price", Json.num 7500)] : List (String × Json)).lookup "base_price" = none →
        p'.base_price = sampleProduct.base_price) ∧
      (∀ v, ([("base_price", Json.num 7500)] : List (String × Json)).lookup "base_price" = some v →
        pyFloat v = .ok p'.base_price) ∧
      (([("base_price", Json.num 7500)] : List (String × Json)).lookup "description" = none →
        p'.description = sampleProduct.description) ∧
      (∀ v, ([("base_price", Json.num 7500)] : List (String × Json)).lookup "description" = some v →
        p'.description = v) :=
  C9_update_changes_exactly_supplied_fields sampleStore 1 [("base_price", Json.num 7500)]
    sampleProduct (⟨2, [⟨1, Json.str "iPhone 15 Pro", Json.str "", 7500⟩]⟩ : Store)
    ⟨200, .jsonB (.obj (Product.to_dict ⟨1, Json.str "iPhone 15 Pro", Json.str "", 7500⟩))⟩
    rfl rfl

end GlobalPrice
